import Mathlib

set_option allowUnsafeReducibility true
attribute [local semireducible] Rat.mul Rat.inv Rat.add Rat.div Rat.sub Rat.ofScientific

/-!
Verification development for the Claim Verification Engine
(`src/claim_verifier/tools.py`, class `TextFactChecker`).

Shallow embedding conventions:
* Python JSON scalar values are modelled by `PyVal`; Python dicts produced by
  `json.loads` and by the dict literals in the code are modelled as ordered
  association lists (`PyDict`) with Python `dict` semantics (first-match
  lookup, `setdefault` appends at the end, assignment keeps the key position).
* The two external collaborators (Google Custom Search and the Gemini oracle)
  are modelled by a `Behavior` record giving the outcome of each call site:
  a search either returns an ordered candidate list or raises (carrying the
  exception message), and an oracle round trip either raises, returns text
  that `json.loads` rejects, or returns text parsing to a scalar / an object.
* The TF-IDF vectorization + cosine similarity performed by scikit-learn is
  external library code; it is abstracted as a parameter
  `vec : String → String → Option ℚ` (`none` models the vectorizer raising,
  which the source recovers from via `_simple_word_overlap`).  Everything the
  repository itself does around it (`_tfidf_similarity`'s blank-text guard and
  fallback, `_preprocess_text`, `_simple_word_overlap`) is modelled directly.
* Machine floats are modelled as exact rationals.
-/

namespace ClaimVerifier

/-- Scalar JSON/Python value, as stored in the dicts this code manipulates. -/
inductive PyVal where
  | vnull
  | vbool (b : Bool)
  | vnum (q : ℚ)
  | vstr (s : String)
deriving DecidableEq, Repr

/-- A Python dict with string keys, in insertion order. -/
abbrev PyDict := List (String × PyVal)

/-- Python `d.get(k)` / `d[k]`: value at the key, if present. -/
def dictGet (d : PyDict) (k : String) : Option PyVal :=
  match d with
  | [] => none
  | (k2, v) :: rest => if k2 = k then some v else dictGet rest k

/-- Python `k in d`. -/
def dictContains (d : PyDict) (k : String) : Bool :=
  (dictGet d k).isSome

/-- Python `d.setdefault(k, v)`: insert at the end only when the key is absent. -/
def dictSetdefault (d : PyDict) (k : String) (v : PyVal) : PyDict :=
  if dictContains d k then d else d ++ [(k, v)]

/-- Python `d[k] = v`: overwrite in place, else append. -/
def dictSet (d : PyDict) (k : String) (v : PyVal) : PyDict :=
  match d with
  | [] => [(k, v)]
  | (k2, w) :: rest => if k2 = k then (k2, v) :: rest else (k2, w) :: dictSet rest k v

/-- Python truthiness of a scalar value (used by `if alternatives.get(...)`). -/
def pyTruthy : PyVal → Bool
  | .vnull => false
  | .vbool b => b
  | .vnum q => q ≠ 0
  | .vstr s => s ≠ ""

/-- Python `v != s` where `s` is a string: values of another type never equal a string. -/
def pyValNeStr (v : PyVal) (s : String) : Bool :=
  match v with
  | .vstr s2 => s2 ≠ s
  | _ => true

/-- One search result item, as accessed by the code: `result.get("title", "")`,
`result.get("snippet", "")`, `result.get("link", "")`, and the presence of a
non-empty `pagemap.ClaimReview` entry (`claimReview`). -/
structure Candidate where
  title : String
  snippet : String
  link : String
  claimReview : Bool
deriving DecidableEq, Repr

/-- Whether the character list `s` occurs at the start of `l` (helper for the
Python `in` substring operator). -/
def isPrefixList : List Char → List Char → Bool
  | [], _ => true
  | _ :: _, [] => false
  | a :: as, b :: bs => a == b && isPrefixList as bs

/-- Whether the character list `s` occurs contiguously inside `l`
(the Python `sub in str` operator, on exploded strings). -/
def containsSub (l s : List Char) : Bool :=
  match l with
  | [] => s.isEmpty
  | _ :: xs => isPrefixList s l || containsSub xs s

/-- Python `sub in s` on strings. -/
def strContains (s sub : String) : Bool :=
  containsSub s.toList sub.toList

/-- Python `s.lower()` (character-wise lowercasing). -/
def pyToLower (s : String) : String :=
  String.mk (s.toList.map Char.toLower)

/-- Python `not s.strip()`: the string contains only whitespace. -/
def pyStripEmpty (s : String) : Bool :=
  s.toList.all Char.isWhitespace

/-- The allow-list scanned by `_has_factcheck_data`. -/
def factcheckKeywords : List String :=
  ["fact-check", "factcheck", "snopes", "politifact",
   "factcrescendo", "boomlive", "newschecker", "afp"]

/-- `TextFactChecker._has_factcheck_data`: 1.0 when the result carries
ClaimReview metadata or a fact-check keyword in its lowercased URL or title,
else 0.0. -/
def hasFactcheckData (r : Candidate) : ℚ :=
  if r.claimReview then 1
  else if factcheckKeywords.any
      (fun k => strContains (pyToLower r.link) k || strContains (pyToLower r.title) k) then 1
  else 0

/-- Splitting loop for Python `s.split()`: `acc` holds the reversed current
word. -/
def splitWsAux : List Char → List Char → List String
  | [], acc => if acc.isEmpty then [] else [String.mk acc.reverse]
  | c :: cs, acc =>
    if c.isWhitespace then
      if acc.isEmpty then splitWsAux cs []
      else String.mk acc.reverse :: splitWsAux cs []
    else splitWsAux cs (c :: acc)

/-- Python `s.split()`: split on whitespace runs, dropping empty pieces. -/
def pySplitWs (s : String) : List String :=
  splitWsAux s.toList []

/-- Python `" ".join(ws)`. -/
def joinSpace : List String → String
  | [] => ""
  | [w] => w
  | w :: ws => w ++ " " ++ joinSpace ws

/-- `TextFactChecker._preprocess_text`: lowercase, replace each character
outside `[\w\s]` by a space (ASCII reading of `\w`), collapse whitespace. -/
def preprocessText (s : String) : String :=
  let lowered := pyToLower s
  let cleaned := String.mk (lowered.toList.map
    (fun ch => if ch.isAlphanum || ch = '_' || ch.isWhitespace then ch else ' '))
  joinSpace (pySplitWs cleaned)

/-- The set of lowercased whitespace-separated words of a text
(`set(text.lower().split())`). -/
def pyWordSet (s : String) : Finset String :=
  (pySplitWs (pyToLower s)).toFinset

/-- `TextFactChecker._simple_word_overlap`: Jaccard overlap of the two word
sets, 0 when either is empty. -/
def simpleWordOverlap (t1 t2 : String) : ℚ :=
  let w1 := pyWordSet t1
  let w2 := pyWordSet t2
  if w1 = ∅ ∨ w2 = ∅ then 0
  else if w1 ∪ w2 = ∅ then 0
  else ((w1 ∩ w2).card : ℚ) / ((w1 ∪ w2).card : ℚ)

/-- `TextFactChecker._tfidf_similarity`: 0 when either text strips to blank;
otherwise the external TF-IDF cosine similarity `vec` on the preprocessed
texts, falling back to `simpleWordOverlap` on the raw texts when the
vectorizer raises (`vec ... = none`). -/
def tfidfSimilarity (vec : String → String → Option ℚ) (t1 t2 : String) : ℚ :=
  if pyStripEmpty t1 || pyStripEmpty t2 then 0
  else
    match vec (preprocessText t1) (preprocessText t2) with
    | some s => s
    | none => simpleWordOverlap t1 t2

/-- Python builtin `min(a, b)`: `b` when `b < a`, else `a`.  (Agrees with
`min`; spelled out so that concrete scores reduce in the kernel.) -/
def pyMin (a b : ℚ) : ℚ :=
  if b < a then b else a

/-- `TextFactChecker._calculate_relevance`: weighted sum of title similarity
(0.6), snippet similarity (0.4) and fact-check bonus (0.1), clamped to 1.0.
The title/snippet terms are only added when the field is non-empty, exactly as
in the source. -/
def calculateRelevance (vec : String → String → Option ℚ) (r : Candidate)
    (originalText : String) : ℚ :=
  let s1 := if r.title ≠ "" then tfidfSimilarity vec r.title originalText * 0.6 else 0
  let s2 := if r.snippet ≠ "" then tfidfSimilarity vec r.snippet originalText * 0.4 else 0
  pyMin 1 (s1 + s2 + hasFactcheckData r * 0.1)

/-- The evidence filter inside `TextFactChecker._analyze_results`: keep the
candidates scoring strictly above 0.05, in their original order. -/
def filterRelevant (vec : String → String → Option ℚ) (results : List Candidate)
    (originalText : String) : List Candidate :=
  results.filter (fun r => decide ((0.05 : ℚ) < calculateRelevance vec r originalText))

/-- Outcome of one oracle round trip (`self.model.generate_content` followed by
fence stripping and `json.loads`):
* `raised`: the call (or reading its text) raised, carrying `str(e)`;
* `unparsable`: text came back but `json.loads` raised on it;
* `parsed`: `json.loads` returned a non-dict value;
* `parsedDict`: `json.loads` returned a JSON object (a Python dict). -/
inductive OracleOutcome where
  | raised (msg : String)
  | unparsable (raw : String)
  | parsed (v : PyVal)
  | parsedDict (d : PyDict)

/-- `TextFactChecker._create_alternative_queries`.  Returns `none` for the
implicit `None` produced when the oracle call or the JSON parse raises (the
`except` branch has no `return`), and `some queries` from the normal path:
the `broader_query` and dead-code `simpler_query` fields are each appended
when truthy and different from the original query. -/
def createAlternativeQueries (o : OracleOutcome) (query : String) : Option (List PyVal) :=
  match o with
  | .parsedDict d =>
    let broaderPart :=
      match dictGet d "broader_query" with
      | some v => if pyTruthy v && pyValNeStr v query then [v] else []
      | none => []
    let simplerPart :=
      match dictGet d "simpler_query" with
      | some v => if pyTruthy v && pyValNeStr v query then [v] else []
      | none => []
    some (broaderPart ++ simplerPart)
  | _ => none

/-- The behavior of the external collaborators during one `verify` request:
the outcome of the first `_perform_search` call, of the query-broadening
oracle round trip, of the second `_perform_search` call (as a function of the
alternative-queries value passed to it), and of the verdict-synthesis oracle
round trip.  A search `Except.error e` carries the message of the wrapped
exception `_perform_search` raises. -/
structure Behavior where
  search1 : Except String (List Candidate)
  qpOracle : OracleOutcome
  search2 : Option (List PyVal) → Except String (List Candidate)
  synth : OracleOutcome

/-- `TextFactChecker._search_claims`: first search; on an empty result list,
one broadening round via `_create_alternative_queries` followed by a second
search whose result (empty or not) is returned.  Search exceptions propagate. -/
def searchClaims (B : Behavior) (query : String) : Except String (List Candidate) :=
  match B.search1 with
  | .error e => .error e
  | .ok results =>
    if results = [] then B.search2 (createAlternativeQueries B.qpOracle query)
    else .ok results

/-- `TextFactChecker._fallback_analysis`: the deterministic dict returned when
Gemini analysis fails. -/
def fallbackAnalysis (results : List Candidate) : PyDict :=
  [("verified", .vbool false),
   ("verdict", .vstr "uncertain"),
   ("message", .vstr "Unable to determine claim accuracy from available sources. Found fact-checking articles but analysis failed."),
   ("confidence", .vstr "low"),
   ("relevant_results_count", .vnum (results.length : ℚ)),
   ("analysis_method", .vstr "fallback")]

/-- One numbered evidence entry of the prompt built in `_analyze_with_gemini`. -/
def resultEntryText (i : Nat) (r : Candidate) : String :=
  toString i ++ ". Title: " ++ r.title ++ "\n   Snippet: " ++ r.snippet ++
    "\n   Link: " ++ r.link ++ "\n\n"

/-- The enumeration loop of `_analyze_with_gemini`, numbering entries from `i`. -/
def resultsTextAux (i : Nat) : List Candidate → String
  | [] => ""
  | r :: rs => resultEntryText i r ++ resultsTextAux (i + 1) rs

/-- The `results_text` block of the Gemini prompt: the first (up to) five
results, numbered from 1 (`enumerate(results[:5], 1)`). -/
def resultsText (results : List Candidate) : String :=
  resultsTextAux 1 (results.take 5)

/-- `TextFactChecker._analyze_with_gemini`: on a parsed dict response, apply
the five `setdefault`s and record the evidence count and analysis method; on
any failure (call raised, JSON parse raised, or the parsed value is not a dict
so `.setdefault` raises `AttributeError`), fall back to `_fallback_analysis`. -/
def analyzeWithGemini (synth : OracleOutcome) (results : List Candidate) : PyDict :=
  match synth with
  | .parsedDict d =>
    let a := dictSetdefault d "verdict" (.vstr "uncertain")
    let a := dictSetdefault a "verified" (.vbool false)
    let a := dictSetdefault a "message" (.vstr "Analysis completed")
    let a := dictSetdefault a "confidence" (.vstr "medium")
    let a := dictSetdefault a "reasoning" (.vstr "Analysis completed")
    let a := dictSet a "relevant_results_count" (.vnum (results.length : ℚ))
    dictSet a "analysis_method" (.vstr "gemini")
  | _ => fallbackAnalysis results

/-- `TextFactChecker._analyze_results`: empty input → `no_content` dict;
otherwise filter by relevance and either report `no_content` (nothing
relevant) or run the Gemini analysis on the retained results. -/
def analyzeResults (vec : String → String → Option ℚ) (synth : OracleOutcome)
    (results : List Candidate) (originalText : String) : PyDict :=
  if results = [] then
    [("verified", .vbool false),
     ("verdict", .vstr "no_content"),
     ("message", .vstr "No fact-checked information found for this claim")]
  else
    let relevantResults := filterRelevant vec results originalText
    if relevantResults = [] then
      [("verified", .vbool false),
       ("verdict", .vstr "no_content"),
       ("message", .vstr "No relevant fact-checked information found for this specific claim")]
    else
      analyzeWithGemini synth relevantResults

/-- The `details` sub-dict of the three report literals in `verify`:
the no-results report (with `fact_checks: []` and no `analysis` key), the
success report (with the full search results under `fact_checks` plus the
analysis dict), and the error report (with an `error` key instead). -/
inductive Details where
  | noResults (claimText claimContext claimDate : String)
  | withAnalysis (claimText claimContext claimDate : String)
      (factChecks : List Candidate) (analysis : PyDict)
  | withError (claimText claimContext claimDate : String) (errMsg : String)
deriving DecidableEq, Repr

/-- The dict returned by `TextFactChecker.verify`. -/
structure Report where
  verified : PyVal
  verdict : PyVal
  message : PyVal
  details : Details
deriving DecidableEq, Repr

/-- The `fact_checks` list of a report's details, when that key exists. -/
def detailsFactChecks : Details → Option (List Candidate)
  | .noResults _ _ _ => some []
  | .withAnalysis _ _ _ fcs _ => some fcs
  | .withError _ _ _ _ => none

/-- Python `str(KeyError(k))`, which quotes the key. -/
def pyKeyErrorStr (k : String) : String :=
  String.singleton (Char.ofNat 39) ++ k ++ String.singleton (Char.ofNat 39)

/-- The report `verify` would build if an analysis dict lacked one of the keys
it subscripts (the `KeyError` would be caught by the outer handler).  This
branch is unreachable — every `_analyze_results` dict carries all three keys —
but is modelled for faithfulness. -/
def keyErrorReport (textInput claimContext claimDate k : String) : Report :=
  { verified := .vbool false
    verdict := .vstr "error"
    message := .vstr ("Error during fact-checking: " ++ pyKeyErrorStr k)
    details := .withError textInput claimContext claimDate (pyKeyErrorStr k) }

/-- The success-path report literal of `verify`, subscripting the analysis dict
in Python evaluation order (`verified`, then `verdict`, then `message`). -/
def reportOfAnalysis (textInput claimContext claimDate : String)
    (searchResults : List Candidate) (analysis : PyDict) : Report :=
  match dictGet analysis "verified", dictGet analysis "verdict", dictGet analysis "message" with
  | some vf, some vd, some m =>
    { verified := vf, verdict := vd, message := m
      details := .withAnalysis textInput claimContext claimDate searchResults analysis }
  | none, _, _ => keyErrorReport textInput claimContext claimDate "verified"
  | some _, none, _ => keyErrorReport textInput claimContext claimDate "verdict"
  | some _, some _, none => keyErrorReport textInput claimContext claimDate "message"

/-- `TextFactChecker.verify`: the coordinator.  Search faults are caught by the
outer `except` and become the error report; an empty (possibly broadened)
search yields the `no_content` report; otherwise the analysis dict is wrapped
into the success report. -/
def verify (vec : String → String → Option ℚ) (B : Behavior)
    (textInput claimContext claimDate : String) : Report :=
  match searchClaims B textInput with
  | .error e =>
    { verified := .vbool false
      verdict := .vstr "error"
      message := .vstr ("Error during fact-checking: " ++ e)
      details := .withError textInput claimContext claimDate e }
  | .ok results =>
    if results = [] then
      { verified := .vbool false
        verdict := .vstr "no_content"
        message := .vstr "No fact-checked information found for this claim"
        details := .noResults textInput claimContext claimDate }
    else
      reportOfAnalysis textInput claimContext claimDate results
        (analyzeResults vec B.synth results textInput)

/-- `TextFactChecker._analyze_verdicts`: aggregate a list of verdict strings
with the precedence false > true > mixed > uncertain > unknown. -/
def analyzeVerdicts (verdicts : List String) : PyDict :=
  if verdicts = [] then
    [("verified", .vbool false),
     ("verdict", .vstr "uncertain"),
     ("message", .vstr "No verdicts found")]
  else
    let trueCount := verdicts.count "true"
    let falseCount := verdicts.count "false"
    let mixedCount := verdicts.count "mixed"
    let uncertainCount := verdicts.count "uncertain"
    let unknownCount := verdicts.count "unknown"
    let total := verdicts.length
    let overall : String × Bool :=
      if falseCount > 0 then ("false", false)
      else if trueCount > 0 ∧ falseCount = 0 then ("true", true)
      else if mixedCount > 0 then ("mixed", false)
      else if uncertainCount > 0 then ("uncertain", false)
      else ("unknown", false)
    [("verified", .vbool overall.2),
     ("verdict", .vstr overall.1),
     ("true_count", .vnum (trueCount : ℚ)),
     ("false_count", .vnum (falseCount : ℚ)),
     ("mixed_count", .vnum (mixedCount : ℚ)),
     ("uncertain_count", .vnum (uncertainCount : ℚ)),
     ("unknown_count", .vnum (unknownCount : ℚ)),
     ("total_verdicts", .vnum (total : ℚ))]

/-- The fixed verdict vocabulary of the specification. -/
def allowedVerdicts : List String :=
  ["true", "false", "mixed", "uncertain", "unknown", "no_content", "error"]

/-! ### Concrete inputs used to exercise the model -/

/-- A plain candidate with a one-letter title and no fact-check markers. -/
def wCand : Candidate := ⟨"g", "", "", false⟩

/-- A candidate with every text field empty. -/
def wCandBlank : Candidate := ⟨"", "", "", false⟩

/-- A constant external similarity of one half. -/
def wVecHalf : String → String → Option ℚ := fun _ _ => some (1/2)

/-- A constant external similarity of one twelfth (title score exactly 0.05). -/
def wVecTwelfth : String → String → Option ℚ := fun _ _ => some (1/12)

/-- A constant external similarity of 167/2000 (title score exactly 0.0501). -/
def wVecBoundary : String → String → Option ℚ := fun _ _ => some (167/2000)

/-- A behavior whose first search raises. -/
def wBehaviorErr : Behavior :=
  ⟨.error "API request failed: boom", .raised "down", fun _ => .ok [], .raised "down"⟩

/-- A behavior where both search rounds return no results. -/
def wBehaviorEmpty : Behavior :=
  ⟨.ok [], .parsedDict [("broader_query", .vstr "b")], fun _ => .ok [], .raised "down"⟩

/-- A behavior whose synthesis oracle answers with a verdict outside the fixed
vocabulary and an empty message (the response text
`{"verdict": "banana", "message": ""}`). -/
def wBehaviorBanana : Behavior :=
  ⟨.ok [wCand], .raised "down", fun _ => .ok [],
   .parsedDict [("verdict", .vstr "banana"), ("message", .vstr "")]⟩

/-- A behavior returning two candidates, whose synthesis oracle answers with
an empty JSON object. -/
def wBehaviorTwo : Behavior :=
  ⟨.ok [wCand, wCandBlank], .raised "down", fun _ => .ok [], .parsedDict []⟩

/-- Six candidates titled t1 … t6. -/
def wSixCands : List Candidate :=
  [⟨"t1", "", "", false⟩, ⟨"t2", "", "", false⟩, ⟨"t3", "", "", false⟩,
   ⟨"t4", "", "", false⟩, ⟨"t5", "", "", false⟩, ⟨"t6", "", "", false⟩]

/-- An external similarity that rates (the preprocessed) title "t6" highest. -/
def wVecSix : String → String → Option ℚ :=
  fun a _ => if a = "t6" then some 1 else some (1/2)

end ClaimVerifier

namespace ClaimVerifier

/-! ### Association-list lemmas for the Python dict model -/

theorem dictGet_append (d1 d2 : PyDict) (k : String) :
    dictGet (d1 ++ d2) k =
      match dictGet d1 k with
      | some v => some v
      | none => dictGet d2 k := by
  induction d1 with
  | nil => simp [dictGet]
  | cons p rest ih =>
    obtain ⟨k2, v⟩ := p
    by_cases h : k2 = k <;> simp [dictGet, h, ih]

theorem dictGet_setdefault_self (d : PyDict) (k : String) (v : PyVal) :
    dictGet (dictSetdefault d k v) k = some ((dictGet d k).getD v) := by
  unfold dictSetdefault dictContains
  by_cases h : (dictGet d k).isSome
  · obtain ⟨w, hw⟩ := Option.isSome_iff_exists.mp h
    simp [h, hw]
  · have hn : dictGet d k = none := Option.not_isSome_iff_eq_none.mp h
    simp [h, hn, dictGet_append, dictGet]

theorem dictGet_setdefault_ne (d : PyDict) (k k2 : String) (v : PyVal) (h : k2 ≠ k) :
    dictGet (dictSetdefault d k v) k2 = dictGet d k2 := by
  unfold dictSetdefault
  by_cases hc : dictContains d k
  · simp [hc]
  · rw [if_neg (by simp [hc]), dictGet_append]
    cases hdk : dictGet d k2 <;> simp [dictGet, Ne.symm h]

theorem dictGet_set_self (d : PyDict) (k : String) (v : PyVal) :
    dictGet (dictSet d k v) k = some v := by
  induction d with
  | nil => simp [dictSet, dictGet]
  | cons p rest ih =>
    obtain ⟨k2, w⟩ := p
    by_cases h : k2 = k <;> simp [dictSet, dictGet, h, ih]

theorem dictGet_set_ne (d : PyDict) (k k2 : String) (v : PyVal) (h : k2 ≠ k) :
    dictGet (dictSet d k v) k2 = dictGet d k2 := by
  induction d with
  | nil => simp [dictSet, dictGet, Ne.symm h]
  | cons p rest ih =>
    obtain ⟨k3, w⟩ := p
    by_cases h3 : k3 = k
    · subst h3
      simp [dictSet, dictGet, Ne.symm h]
    · simp [dictSet, dictGet, h3, ih]

end ClaimVerifier

namespace ClaimVerifier

/-! ### Range facts for the relevance scorer -/

theorem hasFactcheckData_cases (r : Candidate) :
    hasFactcheckData r = 0 ∨ hasFactcheckData r = 1 := by
  unfold hasFactcheckData
  by_cases h1 : r.claimReview
  · simp [h1]
  · by_cases h2 : factcheckKeywords.any
        (fun k => strContains (pyToLower r.link) k || strContains (pyToLower r.title) k) <;>
      simp [h1, h2]

theorem simpleWordOverlap_nonneg (t1 t2 : String) : 0 ≤ simpleWordOverlap t1 t2 := by
  unfold simpleWordOverlap
  by_cases h1 : pyWordSet t1 = ∅ ∨ pyWordSet t2 = ∅
  · simp [h1]
  · rw [if_neg h1]
    by_cases h2 : pyWordSet t1 ∪ pyWordSet t2 = ∅
    · simp [h2]
    · rw [if_neg h2]
      positivity

theorem simpleWordOverlap_le_one (t1 t2 : String) : simpleWordOverlap t1 t2 ≤ 1 := by
  unfold simpleWordOverlap
  by_cases h1 : pyWordSet t1 = ∅ ∨ pyWordSet t2 = ∅
  · simp [h1]
  · rw [if_neg h1]
    by_cases h2 : pyWordSet t1 ∪ pyWordSet t2 = ∅
    · simp [h2]
    · rw [if_neg h2]
      refine div_le_one_of_le₀ ?_ (by positivity)
      exact_mod_cast Finset.card_le_card (Finset.inter_subset_union)

theorem tfidfSimilarity_nonneg (vec : String → String → Option ℚ)
    (hvec : ∀ a b q, vec a b = some q → 0 ≤ q ∧ q ≤ 1) (t1 t2 : String) :
    0 ≤ tfidfSimilarity vec t1 t2 := by
  unfold tfidfSimilarity
  by_cases h : (pyStripEmpty t1 || pyStripEmpty t2) = true
  · simp [h]
  · cases hv : vec (preprocessText t1) (preprocessText t2) with
    | none => simp [h, hv, simpleWordOverlap_nonneg]
    | some q =>
      simp only [h, hv, Bool.false_eq_true, if_false]
      exact (hvec _ _ _ hv).1

theorem tfidfSimilarity_le_one (vec : String → String → Option ℚ)
    (hvec : ∀ a b q, vec a b = some q → 0 ≤ q ∧ q ≤ 1) (t1 t2 : String) :
    tfidfSimilarity vec t1 t2 ≤ 1 := by
  unfold tfidfSimilarity
  by_cases h : (pyStripEmpty t1 || pyStripEmpty t2) = true
  · simp [h]
  · cases hv : vec (preprocessText t1) (preprocessText t2) with
    | none => simp [h, hv, simpleWordOverlap_le_one]
    | some q =>
      simp only [h, hv, Bool.false_eq_true, if_false]
      exact (hvec _ _ _ hv).2

theorem tfidfSimilarity_blank_left (vec : String → String → Option ℚ) (t2 : String) :
    tfidfSimilarity vec "" t2 = 0 := by
  simp [tfidfSimilarity, pyStripEmpty]

theorem pyMin_eq_min (a b : ℚ) : pyMin a b = min a b := by
  unfold pyMin
  by_cases h : b < a
  · rw [if_pos h, min_eq_right h.le]
  · rw [if_neg h, min_eq_left (le_of_not_lt h)]

/-! ### Lookup facts for the synthesizer dicts -/

theorem analyzeWithGemini_verdict (d : PyDict) (results : List Candidate) :
    dictGet (analyzeWithGemini (.parsedDict d) results) "verdict" =
      some ((dictGet d "verdict").getD (.vstr "uncertain")) := by
  unfold analyzeWithGemini
  rw [dictGet_set_ne _ _ _ _ (by decide), dictGet_set_ne _ _ _ _ (by decide),
    dictGet_setdefault_ne _ _ _ _ (by decide), dictGet_setdefault_ne _ _ _ _ (by decide),
    dictGet_setdefault_ne _ _ _ _ (by decide), dictGet_setdefault_ne _ _ _ _ (by decide),
    dictGet_setdefault_self]

theorem analyzeWithGemini_verified (d : PyDict) (results : List Candidate) :
    dictGet (analyzeWithGemini (.parsedDict d) results) "verified" =
      some ((dictGet (dictSetdefault d "verdict" (.vstr "uncertain")) "verified").getD
        (.vbool false)) := by
  unfold analyzeWithGemini
  rw [dictGet_set_ne _ _ _ _ (by decide), dictGet_set_ne _ _ _ _ (by decide),
    dictGet_setdefault_ne _ _ _ _ (by decide), dictGet_setdefault_ne _ _ _ _ (by decide),
    dictGet_setdefault_ne _ _ _ _ (by decide), dictGet_setdefault_self]

theorem analyzeWithGemini_message (d : PyDict) (results : List Candidate) :
    dictGet (analyzeWithGemini (.parsedDict d) results) "message" =
      some ((dictGet (dictSetdefault (dictSetdefault d "verdict" (.vstr "uncertain"))
        "verified" (.vbool false)) "message").getD (.vstr "Analysis completed")) := by
  unfold analyzeWithGemini
  rw [dictGet_set_ne _ _ _ _ (by decide), dictGet_set_ne _ _ _ _ (by decide),
    dictGet_setdefault_ne _ _ _ _ (by decide), dictGet_setdefault_ne _ _ _ _ (by decide),
    dictGet_setdefault_self]

theorem analyzeWithGemini_count (o : OracleOutcome) (results : List Candidate) :
    dictGet (analyzeWithGemini o results) "relevant_results_count" =
      some (.vnum (results.length : ℚ)) := by
  cases o with
  | parsedDict d =>
    unfold analyzeWithGemini
    rw [dictGet_set_ne _ _ _ _ (by decide), dictGet_set_self]
  | raised m => rfl
  | unparsable m => rfl
  | parsed v => rfl

theorem analyzeWithGemini_fallback (o : OracleOutcome) (results : List Candidate)
    (h : ∀ d, o ≠ .parsedDict d) :
    analyzeWithGemini o results = fallbackAnalysis results := by
  cases o with
  | parsedDict d => exact absurd rfl (h d)
  | raised m => rfl
  | unparsable m => rfl
  | parsed v => rfl

theorem analyzeResults_keys (vec : String → String → Option ℚ) (synth : OracleOutcome)
    (results : List Candidate) (t : String) :
    (dictGet (analyzeResults vec synth results t) "verified").isSome = true ∧
      (dictGet (analyzeResults vec synth results t) "verdict").isSome = true ∧
      (dictGet (analyzeResults vec synth results t) "message").isSome = true := by
  unfold analyzeResults
  by_cases h1 : results = []
  · simp [h1, dictGet]
  · rw [if_neg h1]
    by_cases h2 : filterRelevant vec results t = []
    · simp [h2, dictGet]
    · rw [if_neg h2]
      cases hsy : synth with
      | parsedDict d =>
        refine ⟨?_, ?_, ?_⟩
        · rw [analyzeWithGemini_verified]; rfl
        · rw [analyzeWithGemini_verdict]; rfl
        · rw [analyzeWithGemini_message]; rfl
      | raised m => simp [analyzeWithGemini, fallbackAnalysis, dictGet]
      | unparsable m => simp [analyzeWithGemini, fallbackAnalysis, dictGet]
      | parsed v => simp [analyzeWithGemini, fallbackAnalysis, dictGet]

end ClaimVerifier

namespace ClaimVerifier

/-! ### Substring and string-append lemmas -/

theorem toList_append (a b : String) : (a ++ b).toList = a.toList ++ b.toList := by
  cases a
  cases b
  rfl

theorem append_ne_empty_left (a b : String) (h : a.toList ≠ []) : a ++ b ≠ "" := by
  intro hh
  apply h
  have h2 := congrArg String.toList hh
  rw [toList_append] at h2
  exact (List.append_eq_nil.mp h2).1

theorem containsSub_nil_sub (l : List Char) : containsSub l [] = true := by
  cases l <;> simp [containsSub, isPrefixList]

theorem isPrefixList_self_append (s b : List Char) : isPrefixList s (s ++ b) = true := by
  induction s with
  | nil => rfl
  | cons c cs ih => simp [isPrefixList, ih]

theorem containsSub_append_right (a l s : List Char) (h : containsSub l s = true) :
    containsSub (a ++ l) s = true := by
  induction a with
  | nil => simpa using h
  | cons x xs ih => simp [containsSub, ih]

theorem containsSub_self_append (s b : List Char) : containsSub (s ++ b) s = true := by
  cases s with
  | nil => simpa using containsSub_nil_sub b
  | cons c cs => simp [containsSub, isPrefixList, isPrefixList_self_append]

theorem resultsTextAux_contains (l : List Candidate) (r : Candidate) (h : r ∈ l) :
    ∀ i, strContains (resultsTextAux i l) r.title = true ∧
      strContains (resultsTextAux i l) r.snippet = true ∧
      strContains (resultsTextAux i l) r.link = true := by
  induction l with
  | nil => cases h
  | cons r0 rs ih =>
    intro i
    rcases List.mem_cons.mp h with h0 | hr
    · subst h0
      refine ⟨?_, ?_, ?_⟩ <;>
      · show containsSub (resultsTextAux i (r :: rs)).toList _ = true
        simp only [resultsTextAux, resultEntryText, toList_append, List.append_assoc]
        repeat
          first
          | exact containsSub_self_append _ _
          | apply containsSub_append_right
    · refine ⟨?_, ?_, ?_⟩ <;>
      · show containsSub (resultsTextAux i (r0 :: rs)).toList _ = true
        simp only [resultsTextAux, toList_append, List.append_assoc]
        apply containsSub_append_right
        first
        | exact (ih hr (i + 1)).1
        | exact (ih hr (i + 1)).2.1
        | exact (ih hr (i + 1)).2.2

end ClaimVerifier

namespace ClaimVerifier

/-! ### Pipeline decomposition lemmas -/

theorem verify_success (vec : String → String → Option ℚ) (B : Behavior)
    (t c dt : String) (results : List Candidate)
    (h1 : searchClaims B t = .ok results) (h2 : results ≠ []) :
    verify vec B t c dt =
      reportOfAnalysis t c dt results (analyzeResults vec B.synth results t) := by
  unfold verify
  rw [h1]
  exact if_neg h2

theorem reportOfAnalysis_fields (t c dt : String) (results : List Candidate)
    (analysis : PyDict) (vf vd m : PyVal)
    (hvf : dictGet analysis "verified" = some vf)
    (hvd : dictGet analysis "verdict" = some vd)
    (hm : dictGet analysis "message" = some m) :
    reportOfAnalysis t c dt results analysis =
      { verified := vf, verdict := vd, message := m
        details := .withAnalysis t c dt results analysis } := by
  unfold reportOfAnalysis
  rw [hvf, hvd, hm]

theorem analyzeResults_no_relevant (vec : String → String → Option ℚ)
    (synth : OracleOutcome) (results : List Candidate) (t : String)
    (h1 : results ≠ []) (h2 : filterRelevant vec results t = []) :
    analyzeResults vec synth results t =
      [("verified", .vbool false), ("verdict", .vstr "no_content"),
       ("message", .vstr "No relevant fact-checked information found for this specific claim")] := by
  unfold analyzeResults
  rw [if_neg h1]
  exact if_pos h2

theorem analyzeResults_gemini (vec : String → String → Option ℚ)
    (synth : OracleOutcome) (results : List Candidate) (t : String)
    (h1 : results ≠ []) (h2 : filterRelevant vec results t ≠ []) :
    analyzeResults vec synth results t =
      analyzeWithGemini synth (filterRelevant vec results t) := by
  unfold analyzeResults
  rw [if_neg h1]
  exact if_neg h2

theorem analyzeWithGemini_verified_clean (d : PyDict) (results : List Candidate) :
    dictGet (analyzeWithGemini (.parsedDict d) results) "verified" =
      some ((dictGet d "verified").getD (.vbool false)) := by
  rw [analyzeWithGemini_verified, dictGet_setdefault_ne _ _ _ _ (by decide)]

theorem analyzeWithGemini_message_clean (d : PyDict) (results : List Candidate) :
    dictGet (analyzeWithGemini (.parsedDict d) results) "message" =
      some ((dictGet d "message").getD (.vstr "Analysis completed")) := by
  rw [analyzeWithGemini_message, dictGet_setdefault_ne _ _ _ _ (by decide),
    dictGet_setdefault_ne _ _ _ _ (by decide)]

end ClaimVerifier

namespace ClaimVerifier

/-! ### Claim theorems -/

/-- C1: `verify` is a total function into `Report` — for every behavior of the
search service and oracle it returns exactly one complete report, and in the
model no exception can escape it.  Any unrecovered fault (a raising search,
the only raiser that reaches the coordinator) yields the error report:
verdict "error", verified false, and a message embedding the fault message. -/
theorem claim1_error_report (vec : String → String → Option ℚ) (B : Behavior)
    (t c dt e : String) (h : searchClaims B t = .error e) :
    verify vec B t c dt =
      { verified := .vbool false
        verdict := .vstr "error"
        message := .vstr ("Error during fact-checking: " ++ e)
        details := .withError t c dt e } := by
  unfold verify
  rw [h]

theorem claim1_witness :
    verify (fun _ _ => some 0) wBehaviorErr "q" "ctx" "date" =
      { verified := .vbool false
        verdict := .vstr "error"
        message := .vstr ("Error during fact-checking: " ++ "API request failed: boom")
        details := .withError "q" "ctx" "date" "API request failed: boom" } :=
  claim1_error_report (fun _ _ => some 0) wBehaviorErr "q" "ctx" "date"
    "API request failed: boom" rfl

/-- C6: whenever the (possibly broadened) search succeeds but the surviving
evidence set is empty — no results at all, or nothing past the threshold —
the report says verdict "no_content" with verified false. -/
theorem claim6_no_content (vec : String → String → Option ℚ) (B : Behavior)
    (t c dt : String) (results : List Candidate)
    (h1 : searchClaims B t = .ok results)
    (h2 : filterRelevant vec results t = []) :
    (verify vec B t c dt).verdict = .vstr "no_content" ∧
      (verify vec B t c dt).verified = .vbool false := by
  unfold verify
  rw [h1]
  by_cases h : results = []
  · simp [h]
  · simp [h, analyzeResults, h2, reportOfAnalysis, dictGet]

theorem claim6_witness :
    (verify wVecHalf wBehaviorEmpty "q" "ctx" "date").verdict = .vstr "no_content" ∧
      (verify wVecHalf wBehaviorEmpty "q" "ctx" "date").verified = .vbool false :=
  claim6_no_content wVecHalf wBehaviorEmpty "q" "ctx" "date" [] rfl rfl

/-- C7: `_analyze_verdicts` — empty input yields the uncertain dict with
message "No verdicts found"; otherwise precedence false > true > mixed >
uncertain > unknown, with verified true exactly in the true branch. -/
theorem claim7_verdict_aggregation (vs : List String) :
    (vs = [] →
      analyzeVerdicts vs =
        [("verified", PyVal.vbool false), ("verdict", PyVal.vstr "uncertain"),
         ("message", PyVal.vstr "No verdicts found")]) ∧
    ("false" ∈ vs →
      dictGet (analyzeVerdicts vs) "verdict" = some (.vstr "false") ∧
        dictGet (analyzeVerdicts vs) "verified" = some (.vbool false)) ∧
    ("false" ∉ vs → "true" ∈ vs →
      dictGet (analyzeVerdicts vs) "verdict" = some (.vstr "true") ∧
        dictGet (analyzeVerdicts vs) "verified" = some (.vbool true)) ∧
    ("false" ∉ vs → "true" ∉ vs → "mixed" ∈ vs →
      dictGet (analyzeVerdicts vs) "verdict" = some (.vstr "mixed") ∧
        dictGet (analyzeVerdicts vs) "verified" = some (.vbool false)) ∧
    ("false" ∉ vs → "true" ∉ vs → "mixed" ∉ vs → "uncertain" ∈ vs →
      dictGet (analyzeVerdicts vs) "verdict" = some (.vstr "uncertain") ∧
        dictGet (analyzeVerdicts vs) "verified" = some (.vbool false)) ∧
    (vs ≠ [] → "false" ∉ vs → "true" ∉ vs → "mixed" ∉ vs → "uncertain" ∉ vs →
      dictGet (analyzeVerdicts vs) "verdict" = some (.vstr "unknown") ∧
        dictGet (analyzeVerdicts vs) "verified" = some (.vbool false)) := by
  refine ⟨?_, ?_, ?_, ?_, ?_, ?_⟩
  · intro h
    simp [h, analyzeVerdicts]
  · intro h
    have hne : vs ≠ [] := List.ne_nil_of_mem h
    have hf : 0 < vs.count "false" := List.count_pos_iff.mpr h
    simp [analyzeVerdicts, hne, hf, dictGet]
  · intro hf ht
    have hne : vs ≠ [] := List.ne_nil_of_mem ht
    have hf0 : vs.count "false" = 0 := List.count_eq_zero.mpr hf
    have ht1 : 0 < vs.count "true" := List.count_pos_iff.mpr ht
    simp [analyzeVerdicts, hne, hf0, ht1, dictGet]
  · intro hf ht hm
    have hne : vs ≠ [] := List.ne_nil_of_mem hm
    have hf0 : vs.count "false" = 0 := List.count_eq_zero.mpr hf
    have ht0 : vs.count "true" = 0 := List.count_eq_zero.mpr ht
    have hm1 : 0 < vs.count "mixed" := List.count_pos_iff.mpr hm
    simp [analyzeVerdicts, hne, hf0, ht0, hm1, dictGet]
  · intro hf ht hm hu
    have hne : vs ≠ [] := List.ne_nil_of_mem hu
    have hf0 : vs.count "false" = 0 := List.count_eq_zero.mpr hf
    have ht0 : vs.count "true" = 0 := List.count_eq_zero.mpr ht
    have hm0 : vs.count "mixed" = 0 := List.count_eq_zero.mpr hm
    have hu1 : 0 < vs.count "uncertain" := List.count_pos_iff.mpr hu
    simp [analyzeVerdicts, hne, hf0, ht0, hm0, hu1, dictGet]
  · intro hne hf ht hm hu
    have hf0 : vs.count "false" = 0 := List.count_eq_zero.mpr hf
    have ht0 : vs.count "true" = 0 := List.count_eq_zero.mpr ht
    have hm0 : vs.count "mixed" = 0 := List.count_eq_zero.mpr hm
    have hu0 : vs.count "uncertain" = 0 := List.count_eq_zero.mpr hu
    simp [analyzeVerdicts, hne, hf0, ht0, hm0, hu0, dictGet]

theorem claim7_witness :
    dictGet (analyzeVerdicts ["true", "false"]) "verdict" = some (.vstr "false") ∧
      dictGet (analyzeVerdicts ["true", "mixed"]) "verdict" = some (.vstr "true") ∧
      dictGet (analyzeVerdicts []) "message" = some (.vstr "No verdicts found") :=
  ⟨((claim7_verdict_aggregation ["true", "false"]).2.1 (by decide)).1,
   ((claim7_verdict_aggregation ["true", "mixed"]).2.2.1 (by decide) (by decide)).1,
   by rw [(claim7_verdict_aggregation []).1 rfl]; rfl⟩

/-- C8: whenever the synthesis oracle raises, its response fails to parse, or
parses to a non-object, `_analyze_with_gemini` returns the fallback analysis:
uncertain / not verified / low confidence / fallback method, with the fixed
message and the retained evidence count. -/
theorem claim8_fallback_synthesis (o : OracleOutcome) (results : List Candidate)
    (h : ∀ d, o ≠ OracleOutcome.parsedDict d) :
    dictGet (analyzeWithGemini o results) "verdict" = some (.vstr "uncertain") ∧
      dictGet (analyzeWithGemini o results) "verified" = some (.vbool false) ∧
      dictGet (analyzeWithGemini o results) "confidence" = some (.vstr "low") ∧
      dictGet (analyzeWithGemini o results) "analysis_method" = some (.vstr "fallback") ∧
      dictGet (analyzeWithGemini o results) "message" =
        some (.vstr "Unable to determine claim accuracy from available sources. Found fact-checking articles but analysis failed.") ∧
      dictGet (analyzeWithGemini o results) "relevant_results_count" =
        some (.vnum (results.length : ℚ)) := by
  rw [analyzeWithGemini_fallback o results h]
  refine ⟨?_, ?_, ?_, ?_, ?_, ?_⟩ <;> simp [fallbackAnalysis, dictGet]

theorem claim8_witness :
    dictGet (analyzeWithGemini (.raised "boom") [wCand]) "analysis_method" =
        some (.vstr "fallback") ∧
      dictGet (analyzeWithGemini (.raised "boom") [wCand]) "relevant_results_count" =
        some (.vnum 1) := by
  have h := claim8_fallback_synthesis (.raised "boom") [wCand] (fun d hd => by cases hd)
  exact ⟨h.2.2.2.1, by simpa using h.2.2.2.2.2⟩

end ClaimVerifier

namespace ClaimVerifier

/-- C4: the relevance score equals
`similarity(title)*0.6 + similarity(snippet)*0.4 + factCheckBonus*0.1`
clamped to at most 1.0, and lies in [0,1], for every external similarity
whose values lie in [0,1]. -/
theorem claim4_relevance_formula (vec : String → String → Option ℚ)
    (hvec : ∀ a b q, vec a b = some q → 0 ≤ q ∧ q ≤ 1) (r : Candidate) (t : String) :
    calculateRelevance vec r t =
      min 1 (tfidfSimilarity vec r.title t * 0.6 + tfidfSimilarity vec r.snippet t * 0.4 +
        hasFactcheckData r * 0.1) ∧
      0 ≤ calculateRelevance vec r t ∧ calculateRelevance vec r t ≤ 1 := by
  have hb := hasFactcheckData_cases r
  have hb0 : 0 ≤ hasFactcheckData r := by
    rcases hb with h | h <;> simp [h]
  have ht0 : 0 ≤ tfidfSimilarity vec r.title t := tfidfSimilarity_nonneg vec hvec _ _
  have hs0 : 0 ≤ tfidfSimilarity vec r.snippet t := tfidfSimilarity_nonneg vec hvec _ _
  have hsum : 0 ≤
      ((if r.title ≠ "" then tfidfSimilarity vec r.title t * 0.6 else 0) +
        (if r.snippet ≠ "" then tfidfSimilarity vec r.snippet t * 0.4 else 0)) +
        hasFactcheckData r * 0.1 := by
    have h1 : 0 ≤ (if r.title ≠ "" then tfidfSimilarity vec r.title t * 0.6 else 0) := by
      split
      · exact mul_nonneg ht0 (by norm_num)
      · exact le_refl 0
    have h2 : 0 ≤ (if r.snippet ≠ "" then tfidfSimilarity vec r.snippet t * 0.4 else 0) := by
      split
      · exact mul_nonneg hs0 (by norm_num)
      · exact le_refl 0
    have h3 : 0 ≤ hasFactcheckData r * 0.1 := mul_nonneg hb0 (by norm_num)
    positivity
  refine ⟨?_, ?_, ?_⟩
  · unfold calculateRelevance
    rw [pyMin_eq_min]
    congr 1
    by_cases h1 : r.title = "" <;> by_cases h2 : r.snippet = "" <;>
      simp [h1, h2, tfidfSimilarity_blank_left]
  · unfold calculateRelevance
    rw [pyMin_eq_min]
    exact le_min (by norm_num) hsum
  · unfold calculateRelevance
    rw [pyMin_eq_min]
    exact min_le_left 1 _

theorem claim4_witness :
    calculateRelevance wVecHalf wCand "x" =
      min 1 (tfidfSimilarity wVecHalf wCand.title "x" * 0.6 +
        tfidfSimilarity wVecHalf wCand.snippet "x" * 0.4 + hasFactcheckData wCand * 0.1) ∧
      0 ≤ calculateRelevance wVecHalf wCand "x" ∧ calculateRelevance wVecHalf wCand "x" ≤ 1 :=
  claim4_relevance_formula wVecHalf
    (by
      intro a b q h
      simp [wVecHalf] at h
      subst h
      norm_num)
    wCand "x"

/-- C5: the evidence filter keeps exactly the candidates scoring strictly above
0.05 (a score of exactly 0.05 is excluded, 0.0501 included) and preserves the
original search order (the kept list is a sublist of the input). -/
theorem claim5_filter_threshold (vec : String → String → Option ℚ)
    (results : List Candidate) (t : String) :
    List.Sublist (filterRelevant vec results t) results ∧
      (∀ r, r ∈ filterRelevant vec results t ↔
        r ∈ results ∧ (0.05 : ℚ) < calculateRelevance vec r t) ∧
      (∀ r ∈ results, calculateRelevance vec r t = 0.05 →
        r ∉ filterRelevant vec results t) ∧
      (∀ r ∈ results, calculateRelevance vec r t = 0.0501 →
        r ∈ filterRelevant vec results t) := by
  refine ⟨List.filter_sublist _, ?_, ?_, ?_⟩
  · intro r
    simp [filterRelevant, List.mem_filter]
  · intro r hr h
    simp [filterRelevant, List.mem_filter, h]
  · intro r hr h
    simp [filterRelevant, List.mem_filter, hr, h]
    norm_num

theorem claim5_witness :
    wCand ∉ filterRelevant wVecTwelfth [wCand] "x" ∧
      wCand ∈ filterRelevant wVecBoundary [wCand] "x" :=
  ⟨(claim5_filter_threshold wVecTwelfth [wCand] "x").2.2.1 wCand (by decide) (by decide),
   (claim5_filter_threshold wVecBoundary [wCand] "x").2.2.2 wCand (by decide) (by decide)⟩

end ClaimVerifier

namespace ClaimVerifier

/-- C2 is refuted at this input: the synthesis oracle answers
`{"verdict": "banana", "message": ""}`, which parses, so `setdefault` leaves
both fields untouched and the report carries a verdict outside the fixed
vocabulary together with an empty message. -/
theorem claim2_counterexample :
    (verify wVecHalf wBehaviorBanana "claim" "ctx" "date").verdict = .vstr "banana" ∧
      "banana" ∉ allowedVerdicts ∧
      (verify wVecHalf wBehaviorBanana "claim" "ctx" "date").message = .vstr "" := by
  refine ⟨by decide, by decide, by decide⟩

/-- C2 (amended): on every path that does not take its verdict from a
successfully parsed oracle response object, the report verdict belongs to the
fixed vocabulary and the message is a non-empty string; when the oracle
response parses to an object, verdict and message are carried over from that
object (defaulted only when the key is absent) without validation. -/
theorem claim2_verdict_vocabulary (vec : String → String → Option ℚ) (B : Behavior)
    (t c dt : String) :
    (∃ sv m, (verify vec B t c dt).verdict = .vstr sv ∧ sv ∈ allowedVerdicts ∧
      (verify vec B t c dt).message = .vstr m ∧ m ≠ "") ∨
    (∃ d, B.synth = .parsedDict d ∧
      (verify vec B t c dt).verdict = (dictGet d "verdict").getD (.vstr "uncertain") ∧
      (verify vec B t c dt).message = (dictGet d "message").getD (.vstr "Analysis completed")) := by
  cases hs : searchClaims B t with
  | error e =>
    left
    have hv : verify vec B t c dt =
        { verified := .vbool false, verdict := .vstr "error"
          message := .vstr ("Error during fact-checking: " ++ e)
          details := .withError t c dt e } := by
      unfold verify
      rw [hs]
    exact ⟨"error", "Error during fact-checking: " ++ e, by rw [hv], by decide,
      by rw [hv], append_ne_empty_left _ _ (by decide)⟩
  | ok results =>
    by_cases hr : results = []
    · subst hr
      left
      have hv : verify vec B t c dt =
          { verified := .vbool false, verdict := .vstr "no_content"
            message := .vstr "No fact-checked information found for this claim"
            details := .noResults t c dt } := by
        unfold verify
        rw [hs]
        rfl
      exact ⟨"no_content", "No fact-checked information found for this claim",
        by rw [hv], by decide, by rw [hv], by decide⟩
    · have hv := verify_success vec B t c dt results hs hr
      by_cases hrel : filterRelevant vec results t = []
      · left
        have ha := analyzeResults_no_relevant vec B.synth results t hr hrel
        have hro := reportOfAnalysis_fields t c dt results
          (analyzeResults vec B.synth results t) (.vbool false) (.vstr "no_content")
          (.vstr "No relevant fact-checked information found for this specific claim")
          (by rw [ha]; rfl) (by rw [ha]; rfl) (by rw [ha]; rfl)
        exact ⟨"no_content", "No relevant fact-checked information found for this specific claim",
          by rw [hv, hro], by decide, by rw [hv, hro], by decide⟩
      · by_cases hd : ∃ d, B.synth = OracleOutcome.parsedDict d
        · obtain ⟨d, hsy⟩ := hd
          right
          have ha : analyzeResults vec B.synth results t =
              analyzeWithGemini (.parsedDict d) (filterRelevant vec results t) := by
            rw [analyzeResults_gemini vec B.synth results t hr hrel, hsy]
          have hro := reportOfAnalysis_fields t c dt results
            (analyzeResults vec B.synth results t)
            ((dictGet d "verified").getD (.vbool false))
            ((dictGet d "verdict").getD (.vstr "uncertain"))
            ((dictGet d "message").getD (.vstr "Analysis completed"))
            (by rw [ha, analyzeWithGemini_verified_clean])
            (by rw [ha, analyzeWithGemini_verdict])
            (by rw [ha, analyzeWithGemini_message_clean])
          exact ⟨d, hsy, by rw [hv, hro], by rw [hv, hro]⟩
        · left
          have hfb : analyzeWithGemini B.synth (filterRelevant vec results t) =
              fallbackAnalysis (filterRelevant vec results t) :=
            analyzeWithGemini_fallback _ _ (fun d hdd => hd ⟨d, hdd⟩)
          have ha : analyzeResults vec B.synth results t =
              fallbackAnalysis (filterRelevant vec results t) := by
            rw [analyzeResults_gemini vec B.synth results t hr hrel, hfb]
          have hro := reportOfAnalysis_fields t c dt results
            (analyzeResults vec B.synth results t) (.vbool false) (.vstr "uncertain")
            (.vstr "Unable to determine claim accuracy from available sources. Found fact-checking articles but analysis failed.")
            (by rw [ha]; rfl) (by rw [ha]; rfl) (by rw [ha]; rfl)
          exact ⟨"uncertain",
            "Unable to determine claim accuracy from available sources. Found fact-checking articles but analysis failed.",
            by rw [hv, hro], by decide, by rw [hv, hro], by decide⟩

theorem claim2_witness :
    (∃ sv m, (verify wVecHalf wBehaviorErr "q" "ctx" "date").verdict = .vstr sv ∧
      sv ∈ allowedVerdicts ∧
      (verify wVecHalf wBehaviorErr "q" "ctx" "date").message = .vstr m ∧ m ≠ "") ∨
    (∃ d, wBehaviorErr.synth = .parsedDict d ∧
      (verify wVecHalf wBehaviorErr "q" "ctx" "date").verdict =
        (dictGet d "verdict").getD (.vstr "uncertain") ∧
      (verify wVecHalf wBehaviorErr "q" "ctx" "date").message =
        (dictGet d "message").getD (.vstr "Analysis completed")) :=
  claim2_verdict_vocabulary wVecHalf wBehaviorErr "q" "ctx" "date"

/-- C3: evaluating `_create_alternative_queries` at its failure inputs.  When
the oracle call raises, the response is unparsable, or the parsed value is not
an object, the function returns `None` (the `except` branch has no `return`),
not the empty list its annotation, docstring and the specification promise;
only a broadened query equal to the original yields the empty list. -/
theorem claim3_planner_eval :
    createAlternativeQueries (.raised "oracle down") "q" = none ∧
      createAlternativeQueries (.unparsable "not json") "q" = none ∧
      createAlternativeQueries (.parsed (.vstr "plain text")) "q" = none ∧
      createAlternativeQueries (.parsedDict [("broader_query", .vstr "q")]) "q" =
        some [] := by
  refine ⟨rfl, rfl, rfl, by decide⟩

end ClaimVerifier

namespace ClaimVerifier

/-- C9 is refuted at this input: of the two returned candidates only `wCand`
passes the relevance filter, yet the report details carry the full unfiltered
pair (and no relevance scores are attached anywhere in the report). -/
theorem claim9_counterexample :
    detailsFactChecks (verify wVecHalf wBehaviorTwo "claim" "ctx" "date").details =
        some [wCand, wCandBlank] ∧
      filterRelevant wVecHalf [wCand, wCandBlank] "claim" = [wCand] ∧
      calculateRelevance wVecHalf wCandBlank "claim" = 0 ∧
      [wCand, wCandBlank] ≠ [wCand] := by
  refine ⟨by decide, by decide, by decide, by decide⟩

/-- C9 (amended): in every successfully synthesized report the `fact_checks`
sequence in the details is the full ordered candidate list returned by the
search — unfiltered and without attached scores; the retained (filtered)
evidence enters the report only through the analysis dict, whose
`relevant_results_count` equals the length of the filtered sequence. -/
theorem claim9_details_evidence (vec : String → String → Option ℚ) (B : Behavior)
    (t c dt : String) (results : List Candidate)
    (h1 : searchClaims B t = .ok results) (h2 : results ≠ []) :
    detailsFactChecks (verify vec B t c dt).details = some results ∧
      (filterRelevant vec results t ≠ [] →
        dictGet (analyzeResults vec B.synth results t) "relevant_results_count" =
          some (.vnum ((filterRelevant vec results t).length : ℚ))) := by
  constructor
  · have hv := verify_success vec B t c dt results h1 h2
    obtain ⟨hvf, hvd, hm⟩ := analyzeResults_keys vec B.synth results t
    obtain ⟨vf, hvf2⟩ := Option.isSome_iff_exists.mp hvf
    obtain ⟨vd, hvd2⟩ := Option.isSome_iff_exists.mp hvd
    obtain ⟨m, hm2⟩ := Option.isSome_iff_exists.mp hm
    rw [hv, reportOfAnalysis_fields t c dt results _ vf vd m hvf2 hvd2 hm2]
    rfl
  · intro h3
    rw [analyzeResults_gemini vec B.synth results t h2 h3]
    exact analyzeWithGemini_count B.synth _

theorem claim9_witness :
    detailsFactChecks (verify wVecHalf wBehaviorTwo "claim" "ctx" "date").details =
        some [wCand, wCandBlank] ∧
      dictGet (analyzeResults wVecHalf wBehaviorTwo.synth [wCand, wCandBlank] "claim")
          "relevant_results_count" = some (.vnum 1) := by
  have h := claim9_details_evidence wVecHalf wBehaviorTwo "claim" "ctx" "date"
    [wCand, wCandBlank] rfl (by decide)
  have hfil : filterRelevant wVecHalf [wCand, wCandBlank] "claim" = [wCand] := by decide
  refine ⟨h.1, ?_⟩
  have h2 := h.2 (by rw [hfil]; decide)
  rw [hfil] at h2
  simpa using h2

/-- C10 is refuted at this input: all six candidates are retained, the sixth
scores strictly higher than every enumerated one, yet the prompt block lists
only the first five in search order — the most relevant entry "t6" is absent —
while the recorded evidence count is 6, not the 5 actually enumerated. -/
theorem claim10_counterexample :
    filterRelevant wVecSix wSixCands "claim" = wSixCands ∧
      (∀ r ∈ wSixCands.take 5,
        calculateRelevance wVecSix r "claim" <
          calculateRelevance wVecSix (⟨"t6", "", "", false⟩ : Candidate) "claim") ∧
      strContains (resultsText (filterRelevant wVecSix wSixCands "claim")) "t6" = false ∧
      dictGet (analyzeResults wVecSix (.parsedDict []) wSixCands "claim")
        "relevant_results_count" = some (.vnum 6) := by
  refine ⟨by decide, by decide, by decide, by decide⟩

/-- C10 (amended): the prompt enumerates the first (up to) five retained
evidence entries in original search order — each of their titles, snippets and
links appears verbatim in the prompt block — and the recorded evidence count
equals the total number of retained entries, which may exceed the number
enumerated. -/
theorem claim10_prompt_and_count (results : List Candidate) (o : OracleOutcome) :
    (∀ r ∈ results.take 5,
      strContains (resultsText results) r.title = true ∧
        strContains (resultsText results) r.snippet = true ∧
        strContains (resultsText results) r.link = true) ∧
      dictGet (analyzeWithGemini o results) "relevant_results_count" =
        some (.vnum (results.length : ℚ)) := by
  constructor
  · intro r hr
    exact resultsTextAux_contains (results.take 5) r hr 1
  · exact analyzeWithGemini_count o results

theorem claim10_witness :
    strContains (resultsText wSixCands) "t1" = true ∧
      dictGet (analyzeWithGemini (.parsedDict []) wSixCands) "relevant_results_count" =
        some (.vnum 6) := by
  have h := claim10_prompt_and_count wSixCands (.parsedDict [])
  exact ⟨(h.1 ⟨"t1", "", "", false⟩ (by decide)).1, by simpa using h.2⟩

end ClaimVerifier

